import Mathlib

/-!
Verification development for the OpenClaw Command Center dashboard client
(`src/app.js`).  The JavaScript view-model logic is shallowly embedded: each
pure fragment of the client becomes a Lean function over explicit inputs
(fetched payloads, the mutable `state` object, DOM input values), and the
stateful fragments become explicit state-passing functions.  Host-platform
primitives used by the code (`JSON.parse`, `parseInt`) are passed in as
function parameters; host string operations (`trim`, `toLowerCase`, `split`,
`includes`, template interpolation) are modelled characterwise.
-/

namespace OpenClaw

/-! ## Time constants and shared helpers -/

/-- Milliseconds per second. -/
def msPerSec : Nat := 1000

/-- Milliseconds per minute. -/
def msPerMin : Nat := 60000

/-- Milliseconds per hour. -/
def msPerHour : Nat := 3600000

/-- Milliseconds per day. -/
def msPerDay : Nat := 86400000

/-- `CONFIG.openclawUrl` (src/app.js line 4): base path of the gateway proxy. -/
def openclawUrl : String := "/proxy/openclaw"

/-- `CONFIG.scheduleHour` default (src/app.js line 7). -/
def defaultScheduleHour : Nat := 23

/-- Toast severities accepted by `showToast` (src/app.js lines 582-596). -/
inductive ToastKind | info | success | error
deriving DecidableEq, Repr

/-- A toast notification: message text and severity. -/
abbrev Toast := String × ToastKind

/-- JS `String.prototype.trim`, modelled characterwise: drop whitespace from
both ends. -/
def jsTrim (s : String) : String :=
  ⟨((s.data.dropWhile Char.isWhitespace).reverse.dropWhile Char.isWhitespace).reverse⟩

/-- JS `String.prototype.toLowerCase`, modelled characterwise. -/
def jsToLower (s : String) : String :=
  ⟨s.data.map Char.toLower⟩

/-- JS `String.prototype.includes`: `needle` occurs contiguously in `hay`. -/
def strIncludes (hay needle : String) : Bool :=
  hay.data.tails.any (fun t => needle.data.isPrefixOf t)

/-- JS `key.split(':')`, modelled characterwise on the colon separator. -/
def splitOnColon (k : String) : List String :=
  (k.data.splitOn ':').map (fun cs => ⟨cs⟩)

/-- JS `n.toString().padStart(2, '0')` for a natural number: a single-digit
rendering gains a leading zero, anything longer is unchanged. -/
def pad2 (n : Nat) : String :=
  if n < 10 then "0" ++ toString n else toString n

/-! ## Data model: sessions, cron jobs, activity -/

/-- A gateway session as the dashboard reads it.  Fields the client treats as
possibly absent are `Option`s; `active` is the truthy flag read by
`updateStats` (src/app.js line 227). -/
structure Session where
  key : Option String := none
  agentId : Option String := none
  ageMs : Option Int := none
  updatedAt : Option Nat := none
  totalTokens : Option Nat := none
  active : Bool := false
deriving DecidableEq, Repr

/-- A cron job as held in `state.cronJobs` (only identity and the enabled flag
are needed by the claims). -/
structure CronJob where
  id : String := ""
  enabled : Bool := false
deriving DecidableEq, Repr

/-- One synthesized activity entry (`loadActivity`, src/app.js lines 126-131).
The constant `type: 'session'` tag, identical on every entry, is elided. -/
structure ActivityItem where
  agent : String
  content : String
  timestamp : Nat
deriving DecidableEq, Repr

/-! ## `updateStats` (src/app.js line 227) -/

/-- The displayed active-session statistic:
`state.sessions.filter(s => s.active).length || state.sessions.length`.
The JS `||` falls back to the total count when the active count is `0`. -/
def statSessions (sessions : List Session) : Nat :=
  let a := (sessions.filter (fun s => s.active)).length
  if a = 0 then sessions.length else a

/-! ## `updateScheduleCountdown` (src/app.js lines 232-256)

Local time is modelled as milliseconds since a local-midnight-aligned epoch,
so `setHours(H, 0, 0, 0)` on today's date is arithmetic on `now / msPerDay`. -/

/-- The schedule target instant: today's occurrence of hour `H` (minute,
second, millisecond zeroed), rolled to tomorrow when `now` is already past it
(src/app.js lines 233-239). -/
def nextScheduleTime (now H : Nat) : Nat :=
  let today := now / msPerDay * msPerDay + H * msPerHour
  if today < now then today + msPerDay else today

/-- The countdown string built from the millisecond delta (src/app.js lines
241-246): floored hour/minute/second components, each zero-padded to width 2. -/
def countdownString (now H : Nat) : String :=
  let diff := nextScheduleTime now H - now
  pad2 (diff / msPerHour) ++ ":" ++ pad2 (diff % msPerHour / msPerMin) ++ ":" ++
    pad2 (diff % msPerMin / msPerSec)

/-- Claim-side rendering: the zero-padded HH:MM:SS rendering of a millisecond
delta. -/
def renderHMS (d : Nat) : String :=
  pad2 (d / msPerHour) ++ ":" ++ pad2 (d % msPerHour / msPerMin) ++ ":" ++
    pad2 (d % msPerMin / msPerSec)

/-! ## `renderAgents` (src/app.js lines 405-477) -/

/-- The agent-id derivation `renderAgents` actually performs (line 416):
`session.key?.split(':')[1] || 'main'` — the second colon-delimited segment of
the key when the key is present and the segment exists and is non-empty, else
`'main'`.  The explicit `agentId` field is not consulted here. -/
def renderAgentIdOf (s : Session) : String :=
  match s.key with
  | none => "main"
  | some k =>
    match (splitOnColon k)[1]? with
    | some seg => if seg = "" then "main" else seg
    | none => "main"

/-- The freshness test of lines 415-418: `(session.ageMs || 0) / 60000 < 5`,
i.e. the defaulted age is under five minutes. -/
def sessionFresh (s : Session) : Bool :=
  decide (s.ageMs.getD 0 < 300000)

/-- Membership in the `activeAgentIds` set built by the `forEach` of lines
413-421: some session is fresh and derives this agent id. -/
def isActiveAgent (sessions : List Session) (aid : String) : Bool :=
  sessions.any (fun s => sessionFresh s && (renderAgentIdOf s == aid))

/-- The agent-id derivation exactly as claim C1 words it: the explicit
`agentId` field if present, else the key's second colon-delimited segment,
else `'main'`.  Stated only for comparison against `renderAgentIdOf`, the
derivation the code uses. -/
def claimDerivedAgentId (s : Session) : String :=
  match s.agentId with
  | some a => a
  | none =>
    match s.key with
    | none => "main"
    | some k =>
      match (splitOnColon k)[1]? with
      | some seg => if seg = "" then "main" else seg
      | none => "main"

/-- The active-agent predicate under the claim's derivation, for the
counterexample. -/
def claimActiveAgent (sessions : List Session) (aid : String) : Bool :=
  sessions.any (fun s => sessionFresh s && (claimDerivedAgentId s == aid))

/-- One step of the `agentLastActivity` map update (lines 423-425):
`if (!cur || u > cur) map[aid] = u`.  A stored `undefined` or `0` is falsy and
is overwritten unconditionally; otherwise the entry grows monotonically, and a
comparison against an absent `updatedAt` is false. -/
def updLastActivity (cur u : Option Nat) : Option Nat :=
  match cur with
  | none => u
  | some 0 => u
  | some c =>
    match u with
    | some v => if c < v then some v else some c
    | none => some c

/-- `agentLastActivity[aid]` after folding the session list (lines 413-426). -/
def lastActivityOf (sessions : List Session) (aid : String) : Option Nat :=
  sessions.foldl
    (fun cur s => if renderAgentIdOf s = aid then updLastActivity cur s.updatedAt else cur)
    none

/-- The `updatedAt` values of the sessions attributed to agent `aid` under the
code's derivation (claim side: the values whose maximum should be displayed). -/
def agentUpdatedTimes (sessions : List Session) (aid : String) : List Nat :=
  (sessions.filter (fun s => renderAgentIdOf s == aid)).filterMap (fun s => s.updatedAt)

/-! ## `loadActivity` (src/app.js lines 121-135) -/

/-- Synthesis of one activity entry (lines 126-131):
`agent = session.agentId || 'main'`,
`content` from the key and token count (a JS template renders an absent key as
the text `undefined`, and `totalTokens || 0` defaults the count), and
`timestamp = new Date(session.updatedAt || Date.now())` — the JS `||` sends an
absent or zero `updatedAt` to the current time. -/
def mkActivity (nowMs : Nat) (s : Session) : ActivityItem :=
  { agent := match s.agentId with
      | some a => if a = "" then "main" else a
      | none => "main"
    content := "Session " ++ (match s.key with | some k => k | none => "undefined") ++
      " - " ++ toString (s.totalTokens.getD 0) ++ " tokens"
    timestamp := match s.updatedAt with
      | some 0 => nowMs
      | some v => v
      | none => nowMs }

/-- The descending-timestamp order of the comparator
`(a, b) => b.timestamp - a.timestamp` (line 132): `a` may precede `b` exactly
when the comparator is non-positive. -/
def actDesc (a b : ActivityItem) : Prop := b.timestamp ≤ a.timestamp

instance : DecidableRel actDesc := fun a b => Nat.decLe b.timestamp a.timestamp

instance : IsTotal ActivityItem actDesc := ⟨fun a b => Nat.le_total b.timestamp a.timestamp⟩

instance : IsTrans ActivityItem actDesc := ⟨fun _ _ _ h1 h2 => Nat.le_trans h2 h1⟩

/-- `loadActivity` (lines 126-132): map the sessions to activity entries, sort
with the descending comparator, truncate to 20.  The host `Array.sort` is
specified only as a comparator-sorted permutation, modelled here by a stable
insertion sort under `actDesc`. -/
def loadActivityModel (nowMs : Nat) (sessions : List Session) : List ActivityItem :=
  ((sessions.map (mkActivity nowMs)).insertionSort actDesc).take 20

/-! ## `refreshAll` and the independent loaders (src/app.js lines 84-135, 964-979) -/

/-- Body of a `/sessions` response: the `sessions` field may be absent
(`data && data.sessions` fails on it).  An empty array is truthy in JS, so an
explicit empty list still updates state. -/
structure SessionsResp where
  sessions : Option (List Session) := none
deriving DecidableEq, Repr

/-- Body of a `/cron` response: the `jobs` field may be absent. -/
structure CronResp where
  jobs : Option (List CronJob) := none
deriving DecidableEq, Repr

/-- The slice of the mutable `state` object (lines 19-26) that the claims
about the refresh cycle concern. -/
structure DashState where
  sessions : List Session := []
  cronJobs : List CronJob := []
  activity : List ActivityItem := []
deriving DecidableEq, Repr

/-- `loadSessions` (lines 84-97): `state.sessions` is replaced only when the
fetch produced a payload with a `sessions` field; a transport failure
(`fetchOpenClaw` returning `null`) or a missing field leaves the state field
at its previous value (only a DOM placeholder is written). -/
def loadSessionsModel (st : DashState) (resp : Option SessionsResp) : DashState :=
  match resp with
  | some r =>
    match r.sessions with
    | some ss => { st with sessions := ss }
    | none => st
  | none => st

/-- `loadCronJobs` (lines 99-111): same pattern for `state.cronJobs` keyed on
the `jobs` field. -/
def loadCronJobsModel (st : DashState) (resp : Option CronResp) : DashState :=
  match resp with
  | some r =>
    match r.jobs with
    | some js => { st with cronJobs := js }
    | none => st
  | none => st

/-- `loadActivity` (lines 121-135) as a state transformer: it issues its own
`/sessions` fetch and rebuilds `state.activity` only on success. -/
def loadActivityStateModel (nowMs : Nat) (st : DashState) (resp : Option SessionsResp) :
    DashState :=
  match resp with
  | some r =>
    match r.sessions with
    | some ss => { st with activity := loadActivityModel nowMs ss }
    | none => st
  | none => st

/-- `refreshAll` (lines 964-979) restricted to the modelled collections.  The
loaders run concurrently but touch disjoint state fields and each settles
independently, so the fan-out is modelled as sequential composition. -/
def refreshAllModel (nowMs : Nat) (st : DashState) (sessionsResp : Option SessionsResp)
    (cronResp : Option CronResp) (activityResp : Option SessionsResp) : DashState :=
  loadActivityStateModel nowMs
    (loadCronJobsModel (loadSessionsModel st sessionsResp) cronResp) activityResp

/-- A sessions fetch that failed to produce data: transport error or missing
`sessions` key. -/
def sessionsFetchFailed (r : Option SessionsResp) : Prop :=
  r = none ∨ r = some { sessions := none }

/-- A cron fetch that failed to produce data: transport error or missing
`jobs` key. -/
def cronFetchFailed (r : Option CronResp) : Prop :=
  r = none ∨ r = some { jobs := none }

/-! ## Usage aggregation (`renderUsage`, `renderUsageChart`, src/app.js lines 1030-1114) -/

/-- Per-model usage record `summary[p].models[m]` (fields the renderer reads). -/
structure ModelUsage where
  requests : Option Nat := none
  last : Option Nat := none
deriving DecidableEq, Repr

/-- A value of the usage summary object: the reserved `total_requests` counter
or a provider record carrying its `models` map (association list in key
order). -/
inductive SummaryVal
  | num (n : Nat)
  | provider (models : List (String × ModelUsage))
deriving DecidableEq, Repr

/-- The usage summary object (`usageData.summary`): association list in key
order, standing for the JS object. -/
abbrev UsageSummary := List (String × SummaryVal)

/-- JS property access `summary[p]`. -/
def lookupKey (summary : UsageSummary) (p : String) : Option SummaryVal :=
  (summary.find? (fun e => e.fst == p)).map Prod.snd

/-- The provider list of `renderUsage` (lines 1036-1042):
`Object.keys(summary).filter(k => k !== 'total_requests')`, then, when the
hide-internal toggle is on, additionally `p !== 'Gateway'`. -/
def providersOf (summary : UsageSummary) (hideInternal : Bool) : List String :=
  let ps := (summary.map Prod.fst).filter (fun k => k != "total_requests")
  if hideInternal then ps.filter (fun p => p != "Gateway") else ps

/-- Per-provider request total from `renderUsageChart` (lines 1087-1095): a
fold over `Object.values(summary[p].models)` accumulating `m.requests || 0`,
and `0` when the provider or its `models` map is absent. -/
def providerTotal (summary : UsageSummary) (p : String) : Nat :=
  match lookupKey summary p with
  | some (.provider models) => models.foldl (fun t m => t + m.snd.requests.getD 0) 0
  | _ => 0

/-- The concrete summary of claim C5. -/
def usageExample : UsageSummary :=
  [("Gateway", .provider [("a", { requests := some 5 })]),
   ("OpenAI", .provider [("b", { requests := some 10 })]),
   ("total_requests", .num 15)]

/-! ## Usage-event filtering (`filterUsageEvents`, src/app.js lines 1204-1220) -/

/-- One usage event; every field the serializer and filter can see is optional
(absent = JS `undefined`). -/
structure UsageEvent where
  timestamp : Option Nat := none
  provider : Option String := none
  model : Option String := none
  duration_s : Option Nat := none
  error : Option String := none
deriving DecidableEq, Repr

/-- `JSON.stringify` on a usage event: fields in declaration order, absent
fields omitted, string values quoted (the model assumes field strings need no
escaping). -/
def serializeEvent (e : UsageEvent) : String :=
  let q := fun (s : String) => "\"" ++ s ++ "\""
  let fields := List.filterMap id
    [e.timestamp.map (fun t => q "timestamp" ++ ":" ++ toString t),
     e.provider.map (fun p => q "provider" ++ ":" ++ q p),
     e.model.map (fun m => q "model" ++ ":" ++ q m),
     e.duration_s.map (fun d => q "duration_s" ++ ":" ++ toString d),
     e.error.map (fun s => q "error" ++ ":" ++ q s)]
  "\x7b" ++ String.intercalate "," fields ++ "\x7d"

/-- `filterUsageEvents` (lines 1204-1220): lowercase the search box text; keep
events whose `provider` field strictly equals the dropdown value (unless it is
`'all'`); then keep events whose lowercased serialized form contains the
query (unless the query is empty). -/
def filterUsageEventsModel (events : List UsageEvent) (provider searchRaw : String) :
    List UsageEvent :=
  let query := jsToLower searchRaw
  let e1 := if provider == "all" then events
            else events.filter (fun e => e.provider == some provider)
  if query != "" then e1.filter (fun e => strIncludes (jsToLower (serializeEvent e)) query)
  else e1

/-! ## `spawnAgent` (src/app.js lines 480-503) -/

/-- The spawn response body as `spawnAgent` inspects it: a truthy `ok` flag
and an optional application-level `error` field. -/
structure SpawnResp where
  ok : Bool := false
  error : Option String := none
deriving DecidableEq, Repr

/-- JS truthiness of the `error` field: present and not the empty string. -/
def errTruthy (e : Option String) : Bool :=
  match e with
  | some s => s != ""
  | none => false

/-- The user-visible outcome of one `spawnAgent` dispatch. -/
structure SpawnOutcome where
  toasts : List Toast
  hidModal : Bool
  scheduledRefresh : Bool
deriving DecidableEq, Repr

/-- The informational toast emitted before the call (line 489). -/
def spawningToast (agentName : String) : Toast :=
  ("Spawning " ++ agentName ++ "...", ToastKind.info)

/-- `spawnAgent` (lines 480-503): reject an empty task locally; otherwise emit
the informational toast and branch on the `fetchOpenClaw` result (`none` =
transport exception caught inside `fetchOpenClaw`).  The `if (result &&
result.ok) ... else if (result && result.error)` chain has no final `else`:
a non-`ok` response without a truthy `error` field, and a `null` result, both
fall through without any further toast. -/
def spawnAgentModel (agentName task : String) (result : Option SpawnResp) : SpawnOutcome :=
  if jsTrim task = "" then
    { toasts := [("Please enter a task", ToastKind.error)],
      hidModal := false, scheduledRefresh := false }
  else
    let base := [spawningToast agentName]
    match result with
    | some r =>
      if r.ok then
        { toasts := base ++ [("Spawned " ++ agentName ++ " ✓", ToastKind.success)],
          hidModal := true, scheduledRefresh := true }
      else if errTruthy r.error then
        { toasts := base ++
            [("Failed to spawn: " ++ r.error.getD "Unknown error", ToastKind.error)],
          hidModal := false, scheduledRefresh := false }
      else
        { toasts := base, hidModal := false, scheduledRefresh := false }
    | none => { toasts := base, hidModal := false, scheduledRefresh := false }

/-- Whether an outcome carries any error-severity toast. -/
def hasErrorToast (o : SpawnOutcome) : Bool :=
  o.toasts.any (fun t => t.snd == ToastKind.error)

/-! ## Dispatcher endpoints (`quickSpawn`, `triggerCron`, `spawnAgent`) -/

/-- A proxied mutating request: URL, method, and the JSON body as field/value
pairs. -/
structure ProxyCall where
  url : String
  method : String
  body : List (String × String)
deriving DecidableEq, Repr

/-- URL construction in `fetchOpenClaw` (line 31): configured base plus
endpoint. -/
def openclawEndpointUrl (endpoint : String) : String :=
  openclawUrl ++ endpoint

/-- The canned per-agent tasks of `quickSpawn` (lines 506-510) with its
`|| 'Execute your default task.'` fallback. -/
def quickSpawnTask (agentId : String) : String :=
  if agentId = "blog-publisher" then
    "Check /workspace/agent/drafts/ for ready posts. Publish one if available."
  else if agentId = "research-scraper" then
    "Pick a topic from INTERESTS.md and do a quick research dive. Save notes."
  else if agentId = "inbox-checker" then
    "Check for new emails and notifications. Report anything important."
  else "Execute your default task."

/-- The POST issued by `quickSpawn` (lines 512-515). -/
def quickSpawnCall (agentId : String) : ProxyCall :=
  { url := openclawEndpointUrl "/api/sessions/spawn", method := "POST",
    body := [("agentId", agentId), ("task", quickSpawnTask agentId)] }

/-- The POST issued by `triggerCron` (lines 526-529). -/
def triggerCronCall (jobId : String) : ProxyCall :=
  { url := openclawEndpointUrl "/api/cron/run", method := "POST",
    body := [("jobId", jobId)] }

/-- The POST issued by the modal dispatcher `spawnAgent` (lines 491-494). -/
def spawnAgentCall (agentId task : String) : ProxyCall :=
  { url := openclawEndpointUrl "/sessions/spawn", method := "POST",
    body := [("agentId", agentId), ("task", task)] }

/-! ## `saveSettings` (src/app.js lines 917-961) -/

/-- The settings-form text inputs read at lines 919-931. -/
structure SettingsForm where
  hashnodeKey : String := ""
  hashnodeUrl : String := ""
  publicationId : String := ""
  scheduleHourText : String := ""
  notesPath : String := ""
  rssFeedsText : String := ""
  providersText : String := ""
deriving DecidableEq, Repr

/-- The assembled settings payload (lines 920-932).  `J` is the type of parsed
provider-config JSON; `providers = none` stands for the literal `{}` default
used when the textarea is empty. -/
structure SettingsPayload (J : Type) where
  hashnode_api_key : String
  hashnode_url : String
  publication_id : String
  scheduleHour : Nat
  notes_path : String
  rss_feeds : List String
  providers : Option J

/-- The observable effects of one `saveSettings` run. -/
structure SaveOutcome (J : Type) where
  toasts : List Toast
  posted : List (SettingsPayload J)
  scheduleHour : Nat
  refreshed : Bool
  result : Bool

/-- `saveSettings` (lines 917-961) with the host pieces passed in: `parseJson`
models `JSON.parse` (`none` = throw), `parseIntOpt` models `parseInt` (`none`
= NaN, and a parsed `0` is falsy under the `|| CONFIG.scheduleHour` default),
and `netResp` is the settings-store reply (`none` = transport exception,
`some ok` = a JSON body whose `ok` flag is `ok`).  An invalid provider-config
blob aborts before any network interaction with a local validation toast. -/
def saveSettingsModel (J : Type) (form : SettingsForm) (parseJson : String → Option J)
    (parseIntOpt : String → Option Nat) (cfgScheduleHour : Nat) (netResp : Option Bool) :
    SaveOutcome J :=
  let provText := jsTrim form.providersText
  let provParsed : Option (Option J) :=
    if provText = "" then some none else (parseJson provText).map some
  match provParsed with
  | none =>
    { toasts := [("Invalid providers JSON", ToastKind.error)], posted := [],
      scheduleHour := cfgScheduleHour, refreshed := false, result := false }
  | some providers =>
    let hour := match parseIntOpt form.scheduleHourText with
      | some 0 => cfgScheduleHour
      | some n => n
      | none => cfgScheduleHour
    let payload : SettingsPayload J :=
      { hashnode_api_key := jsTrim form.hashnodeKey
        hashnode_url := jsTrim form.hashnodeUrl
        publication_id := jsTrim form.publicationId
        scheduleHour := hour
        notes_path := jsTrim form.notesPath
        rss_feeds := ((form.rssFeedsText.data.splitOn '\n').map
          (fun cs => jsTrim ⟨cs⟩)).filter (fun s => s != "")
        providers := providers }
    match netResp with
    | some true =>
      { toasts := [("Settings saved", ToastKind.success)], posted := [payload],
        scheduleHour := hour, refreshed := true, result := true }
    | some false =>
      { toasts := [("Failed to save settings", ToastKind.error)], posted := [payload],
        scheduleHour := cfgScheduleHour, refreshed := false, result := false }
    | none =>
      { toasts := [("Failed to save settings", ToastKind.error)], posted := [payload],
        scheduleHour := cfgScheduleHour, refreshed := false, result := false }

/-! ## Concrete inputs used by counterexamples and witnesses -/

/-- A session carrying both an explicit `agentId` and a key whose second
colon-delimited segment names a different agent. -/
def sessionKeyed : Session :=
  { key := some "a:b:c", agentId := some "blog-publisher", ageMs := some 0,
    updatedAt := some 1 }

/-- A fresh session attributed to `blog-publisher` through its key. -/
def agentSessionA : Session :=
  { key := some "agent:blog-publisher:1", ageMs := some 0, updatedAt := some 9 }

/-- A usage event from OpenAI carrying an error. -/
def usageEv1 : UsageEvent := { provider := some "OpenAI", error := some "Error: rate limit" }

/-- A usage event from another provider carrying an error. -/
def usageEv2 : UsageEvent := { provider := some "Groq", error := some "Error: down" }

/-- An error-free usage event from OpenAI. -/
def usageEv3 : UsageEvent := { provider := some "OpenAI", model := some "gpt" }

/-! # Theorems

First the shared helper lemmas, then one theorem per claim (with its witness
or counterexample). -/

/-- Folding `t + f x` over a list equals the seed plus the sum of the images. -/
theorem foldl_add_map_sum {α : Type} (f : α → Nat) (l : List α) (a : Nat) :
    l.foldl (fun t x => t + f x) a = a + (l.map f).sum := by
  induction l generalizing a with
  | nil => simp
  | cons x xs ih => simp [ih, Nat.add_assoc]

/-- Characterwise lowercasing preserves non-emptiness. -/
theorem jsToLower_ne_empty (s : String) (h : s ≠ "") : jsToLower s ≠ "" := by
  intro hc
  apply h
  have hdata : s.data.map Char.toLower = [] := congrArg String.data hc
  obtain ⟨data⟩ := s
  cases data with
  | nil => rfl
  | cons c cs => simp at hdata

/-- On two present values, the `agentLastActivity` update keeps the maximum. -/
theorem updLast_some_some (m v : Nat) :
    updLastActivity (some m) (some v) = some (max m v) := by
  cases m with
  | zero => simp [updLastActivity]
  | succ k =>
    show (if k + 1 < v then some v else some (k + 1)) = some (max (k + 1) v)
    split <;> (congr 1; omega)

/-- The seed of a `max` fold bounds the result. -/
theorem le_foldl_max (vs : List Nat) (m : Nat) :
    m ≤ vs.foldl max m ∧ ∀ v ∈ vs, v ≤ vs.foldl max m := by
  induction vs generalizing m with
  | nil => simp
  | cons v t ih =>
    refine ⟨?_, ?_⟩
    · exact le_trans (Nat.le_max_left m v) (ih (max m v)).1
    · intro x hx
      rcases List.mem_cons.mp hx with rfl | hx'
      · exact le_trans (Nat.le_max_right m x) (ih (max m x)).1
      · exact (ih (max m v)).2 x hx'

/-- A `max` fold returns its seed or a list element. -/
theorem foldl_max_mem (vs : List Nat) (m : Nat) :
    vs.foldl max m = m ∨ vs.foldl max m ∈ vs := by
  induction vs generalizing m with
  | nil => exact Or.inl rfl
  | cons v t ih =>
    rcases ih (max m v) with h | h
    · rcases max_choice m v with hm | hm
      · exact Or.inl (by rw [List.foldl_cons, h, hm])
      · exact Or.inr (by rw [List.foldl_cons, h, hm]; exact List.mem_cons_self ..)
    · exact Or.inr (List.mem_cons_of_mem _ h)

/-- A fold of `updLastActivity` over present values starting from a present
seed computes the `max` fold. -/
theorem foldl_updLast_map_some (vs : List Nat) (acc : Nat) :
    (vs.map some).foldl updLastActivity (some acc) = some (vs.foldl max acc) := by
  induction vs generalizing acc with
  | nil => rfl
  | cons v t ih => simp only [List.map_cons, List.foldl_cons, updLast_some_some, ih]

/-- A fold of `updLastActivity` over present values from the empty seed:
`none` on no values, otherwise the maximum (as a `max` fold from the head). -/
theorem foldl_updLast_from_none (vs : List Nat) :
    (vs.map some).foldl updLastActivity none =
      match vs with
      | [] => none
      | v :: t => some (t.foldl max v) := by
  cases vs with
  | nil => rfl
  | cons v t =>
    show (t.map some).foldl updLastActivity (updLastActivity none (some v)) = _
    simp only [updLastActivity, foldl_updLast_map_some]

/-- `lastActivityOf` is the `updLastActivity` fold over the `updatedAt` fields
of the sessions the key-derivation attributes to the agent. -/
theorem lastActivityOf_eq_foldl (sessions : List Session) (aid : String) :
    lastActivityOf sessions aid =
      ((sessions.filter (fun s => renderAgentIdOf s == aid)).map
        (fun s => s.updatedAt)).foldl updLastActivity none := by
  unfold lastActivityOf
  generalize (none : Option Nat) = acc
  induction sessions generalizing acc with
  | nil => rfl
  | cons s tl ih =>
    by_cases hs : renderAgentIdOf s = aid
    · simp only [List.foldl_cons, List.filter_cons, hs, if_pos hs, beq_self_eq_true,
        List.map_cons]
      exact ih _
    · have hb : (renderAgentIdOf s == aid) = false := beq_eq_false_iff_ne.mpr hs
      simp only [List.foldl_cons, List.filter_cons, if_neg hs, hb]
      exact ih _

/-- A list of present options is the `some`-image of its extracted values. -/
theorem all_isSome_eq_map_some (us : List (Option Nat)) (h : ∀ u ∈ us, u.isSome) :
    us = (us.filterMap id).map some := by
  induction us with
  | nil => rfl
  | cons u t ih =>
    obtain ⟨v, rfl⟩ := Option.isSome_iff_exists.mp (h u (List.mem_cons_self ..))
    simp only [List.filterMap_cons, id, List.map_cons, List.cons_inj_right]
    exact ih fun x hx => h x (List.mem_cons_of_mem _ hx)

/-! ## C10 — `updateStats` active-count fallback -/

/-- C10: the displayed active-session statistic equals the count of sessions
with a truthy `active` flag when that count is positive; when the session list
is non-empty and no session is marked active, it falls back to the total
session count. -/
theorem updateStats_active_fallback (sessions : List Session) :
    (0 < (sessions.filter (fun s => s.active)).length →
      statSessions sessions = (sessions.filter (fun s => s.active)).length) ∧
    (sessions ≠ [] → (sessions.filter (fun s => s.active)).length = 0 →
      statSessions sessions = sessions.length) := by
  constructor
  · intro h
    have hne : (sessions.filter (fun s => s.active)).length ≠ 0 := Nat.pos_iff_ne_zero.mp h
    simp [statSessions, hne]
  · intro _ h0
    simp [statSessions, h0]

/-- Witness for C10 at concrete session lists: one of two sessions active
displays 1; two sessions with none active displays the total 2. -/
theorem updateStats_active_fallback_witness :
    statSessions [{ active := true }, { active := false }] = 1 ∧
    statSessions [{ active := false }, { active := false }] = 2 :=
  ⟨(updateStats_active_fallback _).1 (by decide),
   (updateStats_active_fallback _).2 (by decide) (by decide)⟩

/-! ## C9 — dispatcher endpoints -/

/-- C9 counterexample: the quick-spawn dispatcher posts to
`/proxy/openclaw/api/sessions/spawn`, not the table's
`/proxy/openclaw/sessions/spawn`, and the trigger-cron dispatcher posts to
`/proxy/openclaw/api/cron/run`, not `/proxy/openclaw/cron/run`. -/
theorem dispatcher_paths_cex :
    (quickSpawnCall "blog-publisher").url = "/proxy/openclaw/api/sessions/spawn" ∧
    (quickSpawnCall "blog-publisher").url ≠ "/proxy/openclaw/sessions/spawn" ∧
    (triggerCronCall "job-1").url = "/proxy/openclaw/api/cron/run" ∧
    (triggerCronCall "job-1").url ≠ "/proxy/openclaw/cron/run" := by
  refine ⟨rfl, ?_, rfl, ?_⟩ <;> decide

/-- C9 amended: `quickSpawn` posts `{agentId, task}` to
`/proxy/openclaw/api/sessions/spawn` and `triggerCron` posts `{jobId}` to
`/proxy/openclaw/api/cron/run`; only the modal dispatcher `spawnAgent` posts
to the table's `/proxy/openclaw/sessions/spawn`. -/
theorem dispatcher_paths (agentId task jobId : String) :
    quickSpawnCall agentId =
      { url := "/proxy/openclaw/api/sessions/spawn", method := "POST",
        body := [("agentId", agentId), ("task", quickSpawnTask agentId)] } ∧
    triggerCronCall jobId =
      { url := "/proxy/openclaw/api/cron/run", method := "POST",
        body := [("jobId", jobId)] } ∧
    spawnAgentCall agentId task =
      { url := "/proxy/openclaw/sessions/spawn", method := "POST",
        body := [("agentId", agentId), ("task", task)] } :=
  ⟨rfl, rfl, rfl⟩

/-! ## C2 — `spawnAgent` failure handling -/

/-- C2 counterexample: a non-`ok` response without an error field and a
transport exception (`null` result) both complete without any failure toast,
while an explicit error field does produce one — the three remote-failure
kinds do not collapse to the same notification path. -/
theorem spawnAgent_cex :
    hasErrorToast
      (spawnAgentModel "Blog Publisher" "do it" (some { ok := false, error := none })) =
        false ∧
    hasErrorToast (spawnAgentModel "Blog Publisher" "do it" none) = false ∧
    hasErrorToast
      (spawnAgentModel "Blog Publisher" "do it" (some { ok := false, error := some "boom" })) =
        true := by
  decide

/-- C2 amended: with a non-empty task, a response carrying a truthy `error`
field yields the `Failed to spawn` toast, while a `null` result and a non-`ok`
response without a truthy `error` field complete silently after the
informational toast; every kind yields a well-defined outcome (the handler is
total, so no failure crashes the view). -/
theorem spawnAgent_failure_paths (agentName task : String) (result : Option SpawnResp)
    (htask : jsTrim task ≠ "") :
    (∀ r, result = some r → r.ok = false → errTruthy r.error = true →
      spawnAgentModel agentName task result =
        { toasts := [spawningToast agentName,
            ("Failed to spawn: " ++ r.error.getD "Unknown error", ToastKind.error)],
          hidModal := false, scheduledRefresh := false }) ∧
    (result = none →
      spawnAgentModel agentName task result =
        { toasts := [spawningToast agentName], hidModal := false,
          scheduledRefresh := false }) ∧
    (∀ r, result = some r → r.ok = false → errTruthy r.error = false →
      spawnAgentModel agentName task result =
        { toasts := [spawningToast agentName], hidModal := false,
          scheduledRefresh := false }) := by
  refine ⟨?_, ?_, ?_⟩
  · rintro r rfl hok herr
    simp [spawnAgentModel, htask, hok, herr]
  · rintro rfl
    simp [spawnAgentModel, htask]
  · rintro r rfl hok herr
    simp [spawnAgentModel, htask, hok, herr]

/-- Witness for C2 at a concrete dispatch: a transport exception leaves only
the informational toast. -/
theorem spawnAgent_failure_paths_witness :
    spawnAgentModel "Main Agent" "go" none =
      { toasts := [spawningToast "Main Agent"], hidModal := false,
        scheduledRefresh := false } :=
  (spawnAgent_failure_paths "Main Agent" "go" none (by decide)).2.1 rfl

/-! ## C8 — `saveSettings` local JSON validation -/

/-- C8: when the provider-config textarea holds a non-empty string that the
JSON parser rejects, `saveSettings` aborts with the local validation toast,
posts nothing, and leaves the runtime schedule-hour configuration unchanged. -/
theorem saveSettings_invalid_json (J : Type) (form : SettingsForm)
    (parseJson : String → Option J) (parseIntOpt : String → Option Nat)
    (cfgScheduleHour : Nat) (netResp : Option Bool)
    (hne : jsTrim form.providersText ≠ "")
    (hbad : parseJson (jsTrim form.providersText) = none) :
    saveSettingsModel J form parseJson parseIntOpt cfgScheduleHour netResp =
      { toasts := [("Invalid providers JSON", ToastKind.error)], posted := [],
        scheduleHour := cfgScheduleHour, refreshed := false, result := false } := by
  unfold saveSettingsModel
  simp only [if_neg hne, hbad, Option.map_none']

/-- Witness for C8 at a concrete form: textarea text `"x"` with a rejecting
parser aborts locally. -/
theorem saveSettings_invalid_json_witness :
    saveSettingsModel Unit { providersText := "x" } (fun _ => none) (fun _ => none) 23
        (some true) =
      { toasts := [("Invalid providers JSON", ToastKind.error)], posted := [],
        scheduleHour := 23, refreshed := false, result := false } :=
  saveSettings_invalid_json Unit { providersText := "x" } (fun _ => none) (fun _ => none)
    23 (some true) (by decide) rfl

/-! ## C7 — independent refresh of the state-store collections -/

/-- A failed cron fetch leaves the state unchanged. -/
theorem loadCronJobs_failed (st : DashState) (resp : Option CronResp)
    (h : cronFetchFailed resp) : loadCronJobsModel st resp = st := by
  simp only [cronFetchFailed] at h
  rcases h with rfl | rfl <;> rfl

/-- A failed sessions fetch leaves the state unchanged. -/
theorem loadSessions_failed (st : DashState) (resp : Option SessionsResp)
    (h : sessionsFetchFailed resp) : loadSessionsModel st resp = st := by
  simp only [sessionsFetchFailed] at h
  rcases h with rfl | rfl <;> rfl

/-- The activity loader never touches the sessions or cron fields. -/
theorem loadActivityState_preserves (nowMs : Nat) (st : DashState)
    (resp : Option SessionsResp) :
    (loadActivityStateModel nowMs st resp).sessions = st.sessions ∧
    (loadActivityStateModel nowMs st resp).cronJobs = st.cronJobs := by
  cases resp with
  | none => exact ⟨rfl, rfl⟩
  | some r =>
    obtain ⟨os⟩ := r
    cases os <;> exact ⟨rfl, rfl⟩

/-- C7: in a refresh cycle where one collection's fetch fails (transport error
or missing expected key) while another's succeeds, the successful collection's
state field is updated to the fetched data and the failed collection's state
field keeps its previous value. -/
theorem refreshAll_independence (nowMs : Nat) (st : DashState)
    (sessionsResp : Option SessionsResp) (cronResp : Option CronResp)
    (activityResp : Option SessionsResp) :
    (∀ ss, sessionsResp = some { sessions := some ss } → cronFetchFailed cronResp →
      (refreshAllModel nowMs st sessionsResp cronResp activityResp).sessions = ss ∧
      (refreshAllModel nowMs st sessionsResp cronResp activityResp).cronJobs =
        st.cronJobs) ∧
    (∀ js, cronResp = some { jobs := some js } → sessionsFetchFailed sessionsResp →
      (refreshAllModel nowMs st sessionsResp cronResp activityResp).cronJobs = js ∧
      (refreshAllModel nowMs st sessionsResp cronResp activityResp).sessions =
        st.sessions) := by
  constructor
  · rintro ss rfl hcf
    unfold refreshAllModel
    rw [show loadSessionsModel st (some { sessions := some ss }) =
          { st with sessions := ss } from rfl,
        loadCronJobs_failed _ _ hcf]
    have hp := loadActivityState_preserves nowMs { st with sessions := ss } activityResp
    exact ⟨hp.1, hp.2⟩
  · rintro js rfl hsf
    unfold refreshAllModel
    rw [loadSessions_failed _ _ hsf,
        show loadCronJobsModel st (some { jobs := some js }) =
          { st with cronJobs := js } from rfl]
    have hp := loadActivityState_preserves nowMs { st with cronJobs := js } activityResp
    exact ⟨hp.2, hp.1⟩

/-- Witness for C7 at a concrete cycle: sessions succeed, cron fails with a
transport error, the old cron jobs survive. -/
theorem refreshAll_independence_witness :
    (refreshAllModel 0 { cronJobs := [{ id := "nightly", enabled := true }] }
        (some { sessions := some [{ active := true }] }) none none).sessions =
      [{ active := true }] ∧
    (refreshAllModel 0 { cronJobs := [{ id := "nightly", enabled := true }] }
        (some { sessions := some [{ active := true }] }) none none).cronJobs =
      [{ id := "nightly", enabled := true }] :=
  (refreshAll_independence 0 { cronJobs := [{ id := "nightly", enabled := true }] }
      (some { sessions := some [{ active := true }] }) none none).1
    [{ active := true }] rfl (Or.inl rfl)

/-! ## C5 — usage provider totals and provider list -/

/-- C5: a provider's total is the sum of the `requests` fields over its models
(absent counts as 0); the provider list is the summary's keys minus the
reserved `total_requests` key, additionally excluding `Gateway` when the
hide-internal toggle is on; and on the claim's concrete summary the totals are
Gateway=5 and OpenAI=10 with a rendered provider count of 1 under the toggle. -/
theorem renderUsage_totals :
    (∀ (summary : UsageSummary) (p : String) (models : List (String × ModelUsage)),
      lookupKey summary p = some (.provider models) →
      providerTotal summary p = (models.map (fun m => m.snd.requests.getD 0)).sum) ∧
    (∀ (summary : UsageSummary) (hide : Bool),
      providersOf summary hide =
        if hide then
          ((summary.map Prod.fst).filter (fun k => k != "total_requests")).filter
            (fun p => p != "Gateway")
        else (summary.map Prod.fst).filter (fun k => k != "total_requests")) ∧
    providerTotal usageExample "Gateway" = 5 ∧
    providerTotal usageExample "OpenAI" = 10 ∧
    (providersOf usageExample true).length = 1 ∧
    (providersOf usageExample false).length = 2 := by
  refine ⟨?_, ?_, by decide, by decide, by decide, by decide⟩
  · intro summary p models h
    simp [providerTotal, h, foldl_add_map_sum]
  · intro summary hide
    cases hide <;> rfl

/-- Witness for C5: the general total-equals-sum statement applied to the
`Gateway` provider of the concrete summary. -/
theorem renderUsage_totals_witness :
    providerTotal usageExample "Gateway" =
      ([("a", ({ requests := some 5 } : ModelUsage))].map
        (fun m => m.snd.requests.getD 0)).sum :=
  renderUsage_totals.1 usageExample "Gateway" [("a", { requests := some 5 })] (by decide)

/-! ## C3 — schedule countdown -/

/-- C3: for a target hour `H < 24`, the schedule target is the least instant
`t ≥ now` landing exactly on hour `H` with minute, second and millisecond zero
(`t % msPerDay = H * msPerHour`); the delta stays under one day (so the
hour field fits two digits); and the rendered countdown is the zero-padded
HH:MM:SS rendering of that delta. -/
theorem updateScheduleCountdown_correct (now H : Nat) (hH : H < 24) :
    (now ≤ nextScheduleTime now H ∧
     nextScheduleTime now H % msPerDay = H * msPerHour ∧
     ∀ t, now ≤ t → t % msPerDay = H * msPerHour → nextScheduleTime now H ≤ t) ∧
    nextScheduleTime now H - now < msPerDay ∧
    countdownString now H = renderHMS (nextScheduleTime now H - now) := by
  refine ⟨⟨?_, ?_, ?_⟩, ?_, rfl⟩
  · unfold nextScheduleTime
    simp only [msPerDay, msPerHour]
    split <;> omega
  · unfold nextScheduleTime
    simp only [msPerDay, msPerHour] at hH ⊢
    split <;> omega
  · intro t ht hmod
    unfold nextScheduleTime
    simp only [msPerDay, msPerHour] at hmod ⊢
    split <;> omega
  · unfold nextScheduleTime
    simp only [msPerDay, msPerHour] at hH ⊢
    split <;> omega

/-- Witness for C3 at midnight with the default hour 23: the target lands on
hour 23 exactly and the countdown renders the delta. -/
theorem updateScheduleCountdown_witness :
    nextScheduleTime 0 23 % msPerDay = 23 * msPerHour ∧
    countdownString 0 23 = renderHMS (nextScheduleTime 0 23 - 0) :=
  ⟨(updateScheduleCountdown_correct 0 23 (by decide)).1.2.1,
   (updateScheduleCountdown_correct 0 23 (by decide)).2.2⟩

/-! ## C6 — usage-event filtering -/

/-- C6: with a provider filter other than `'all'` and a non-empty search text,
the filtered event list is exactly the filter of the events by the conjunction
of strict provider equality and case-insensitive containment of the query in
the serialized form, and it preserves the events' relative order (it is a
sublist of the input). -/
theorem filterUsageEvents_conjunction (events : List UsageEvent) (P Q : String)
    (hP : P ≠ "all") (hQ : Q ≠ "") :
    filterUsageEventsModel events P Q =
      events.filter (fun e =>
        (e.provider == some P) &&
          strIncludes (jsToLower (serializeEvent e)) (jsToLower Q)) ∧
    (filterUsageEventsModel events P Q).Sublist events := by
  have hq2 : (jsToLower Q != "") = true := bne_iff_ne.mpr (jsToLower_ne_empty Q hQ)
  have hp2 : (P == "all") = false := beq_eq_false_iff_ne.mpr hP
  constructor
  · unfold filterUsageEventsModel
    simp only [hp2, hq2, Bool.false_eq_true, if_false, if_true]
    rw [List.filter_filter]
    exact List.filter_congr fun x _ => by rw [Bool.and_comm]
  · unfold filterUsageEventsModel
    simp only [hp2, hq2, Bool.false_eq_true, if_false, if_true]
    exact (List.filter_sublist _).trans (List.filter_sublist _)

/-- Witness for C6 on three concrete events with provider `OpenAI` and the
uppercase query `ERROR`: only the OpenAI event whose serialization carries an
error field survives, and order is preserved. -/
theorem filterUsageEvents_conjunction_witness :
    filterUsageEventsModel [usageEv1, usageEv2, usageEv3] "OpenAI" "ERROR" =
      List.filter (fun e =>
        (e.provider == some "OpenAI") &&
          strIncludes (jsToLower (serializeEvent e)) (jsToLower "ERROR"))
        [usageEv1, usageEv2, usageEv3] ∧
    (filterUsageEventsModel [usageEv1, usageEv2, usageEv3] "OpenAI" "ERROR").Sublist
      [usageEv1, usageEv2, usageEv3] :=
  filterUsageEvents_conjunction [usageEv1, usageEv2, usageEv3] "OpenAI" "ERROR"
    (by decide) (by decide)

/-! ## C4 — synthesized activity list -/

/-- C4 counterexample: two sessions sharing an `updatedAt` timestamp produce
adjacent activity entries with equal timestamps, so the synthesized list is
not strictly descending (an entry is followed by one with an equal
timestamp). -/
theorem loadActivity_cex :
    ¬ List.Chain' (fun a b => b.timestamp < a.timestamp)
      (loadActivityModel 1000
        [{ key := some "agent:main:1", updatedAt := some 5 },
         { key := some "agent:main:2", updatedAt := some 5 }]) := by
  have he : loadActivityModel 1000
      [{ key := some "agent:main:1", updatedAt := some 5 },
       { key := some "agent:main:2", updatedAt := some 5 }] =
      [{ agent := "main", content := "Session agent:main:1 - 0 tokens", timestamp := 5 },
       { agent := "main", content := "Session agent:main:2 - 0 tokens", timestamp := 5 }] := by
    decide
  intro h
  rw [he] at h
  exact absurd (List.chain'_cons.mp h).1 (by decide)

/-- C4 amended: the synthesized activity list is sorted non-increasing by
timestamp — descending with ties allowed — and its length never exceeds 20. -/
theorem loadActivity_sorted_truncated (nowMs : Nat) (sessions : List Session) :
    List.Pairwise (fun a b => b.timestamp ≤ a.timestamp)
      (loadActivityModel nowMs sessions) ∧
    (loadActivityModel nowMs sessions).length ≤ 20 := by
  constructor
  · exact List.Pairwise.sublist (List.take_sublist _ _)
      (List.sorted_insertionSort actDesc (sessions.map (mkActivity nowMs)))
  · exact List.length_take_le _ _

/-! ## C1 — agent activity inference -/

/-- C1 counterexample: a fresh session carrying an explicit
`agentId: "blog-publisher"` and key `"a:b:c"` marks agent `b` active, not
`blog-publisher` — `renderAgents` derives the id only from the key's second
colon-delimited segment, never from the explicit field the claim puts first. -/
theorem renderAgents_cex :
    isActiveAgent [sessionKeyed] "blog-publisher" = false ∧
    claimActiveAgent [sessionKeyed] "blog-publisher" = true ∧
    isActiveAgent [sessionKeyed] "b" = true := by
  decide

/-- C1 amended: an agent is marked active iff some session whose key-derived
id (second colon-delimited segment, else `'main'`; the explicit `agentId`
field is ignored) matches has defaulted age under 5 minutes; and, whenever
every session attributed to the agent carries an `updatedAt`, the stored
last-activity value is absent iff the agent has no attributed timestamps, and
any stored value is the maximum attributed `updatedAt`. -/
theorem renderAgents_activeSet_lastActivity (sessions : List Session) (aid : String) :
    (isActiveAgent sessions aid = true ↔
      ∃ s ∈ sessions, s.ageMs.getD 0 < 300000 ∧ renderAgentIdOf s = aid) ∧
    ((∀ s ∈ sessions, renderAgentIdOf s = aid → s.updatedAt.isSome) →
      (lastActivityOf sessions aid = none ↔ agentUpdatedTimes sessions aid = []) ∧
      ∀ M, lastActivityOf sessions aid = some M →
        M ∈ agentUpdatedTimes sessions aid ∧
          ∀ v ∈ agentUpdatedTimes sessions aid, v ≤ M) := by
  constructor
  · simp [isActiveAgent, sessionFresh, List.any_eq_true, Bool.and_eq_true,
      decide_eq_true_eq, beq_iff_eq]
  · intro hsome
    have h1 : ∀ u ∈ (sessions.filter (fun s => renderAgentIdOf s == aid)).map
        (fun s => s.updatedAt), u.isSome := by
      intro u hu
      obtain ⟨s, hs, rfl⟩ := List.mem_map.mp hu
      obtain ⟨hmem, hpred⟩ := List.mem_filter.mp hs
      exact hsome s hmem (beq_iff_eq.mp hpred)
    have hvals : (sessions.filter (fun s => renderAgentIdOf s == aid)).map
        (fun s => s.updatedAt) = (agentUpdatedTimes sessions aid).map some := by
      rw [all_isSome_eq_map_some _ h1]
      congr 1
      rw [List.filterMap_map]
      rfl
    have hfold : lastActivityOf sessions aid =
        match agentUpdatedTimes sessions aid with
        | [] => none
        | v :: t => some (t.foldl max v) := by
      rw [lastActivityOf_eq_foldl, hvals, foldl_updLast_from_none]
    rcases hv : agentUpdatedTimes sessions aid with _ | ⟨v, t⟩
    · rw [hv] at hfold
      refine ⟨by simp [hfold], ?_⟩
      intro M hM
      rw [hfold] at hM
      cases hM
    · rw [hv] at hfold
      refine ⟨by simp [hfold], ?_⟩
      intro M hM
      rw [hfold] at hM
      injection hM with hM
      subst hM
      constructor
      · rcases foldl_max_mem t v with h | h
        · rw [h]; exact List.mem_cons_self ..
        · exact List.mem_cons_of_mem _ h
      · intro x hx
        rcases List.mem_cons.mp hx with rfl | hx'
        · exact (le_foldl_max t x).1
        · exact (le_foldl_max t v).2 x hx'

/-- Witness for C1 at a concrete session list: the key-attributed session
marks `blog-publisher` active, and its stored timestamp 9 is among the
attributed `updatedAt` values. -/
theorem renderAgents_activeSet_lastActivity_witness :
    isActiveAgent [agentSessionA] "blog-publisher" = true ∧
    9 ∈ agentUpdatedTimes [agentSessionA] "blog-publisher" :=
  ⟨(renderAgents_activeSet_lastActivity [agentSessionA] "blog-publisher").1.mpr
      ⟨agentSessionA, by decide, by decide, by decide⟩,
   (((renderAgents_activeSet_lastActivity [agentSessionA] "blog-publisher").2
      (by decide)).2 9 (by decide)).1⟩

end OpenClaw
